import Mathlib

/-!
# ThonLabs auth services — shallow embedding

Embedding of the token-lifecycle core of the auth service: the
AuthController flows (signup, refresh, reset-password request /
validate / update, confirm-email) and the UserService, together with
the collaborator services they call (token storage, credential
validator, email trigger).  The controller and UserService definitions
follow the TypeScript source; collaborators whose implementation is
not in the repository snapshot are modelled from the specification and
say so in their doc comments.

Conventions: time is a Nat (minutes); the database is an explicit
Store value threaded through each flow; a thrown HTTP exception is the
error side of an Except; freshly generated ids and opaque token values
are passed in as parameters (the caller supplies the randomness).
-/

/-- Prisma TokenTypes enum, as imported by the controller. -/
inductive TokenTypes where
  | ConfirmEmail
  | MagicLogin
  | ResetPassword
  | InviteUser
deriving DecidableEq, Repr

/-- Modelled from the spec: the tenant authentication policy is
password or magic-link; the confirm-email flow also guards against a
policy value matching neither (a configuration fault), so the model
keeps one extra constructor for such a value. -/
inductive AuthProviders where
  | EmailAndPassword
  | MagicLogin
  | MisconfiguredProvider
deriving DecidableEq, Repr

/-- Modelled from the spec: the error taxonomy of section 7, used as
the statusCode of thrown exceptions and structured failures. -/
inductive StatusCodes where
  | OK
  | Unauthorized
  | Forbidden
  | NotFound
  | NotAcceptable
  | Conflict
  | Internal
  | Expired
deriving DecidableEq, Repr

/-- Email template kinds used by the flows in scope. -/
inductive EmailTemplates where
  | ConfirmEmail
  | Welcome
  | MagicLink
  | ForgotPassword
deriving DecidableEq, Repr

/-- Body of a thrown exception: the mapped status code, plus the
emailResent flag carried by the confirm-email retry outcome. -/
structure ErrBody where
  statusCode : StatusCodes
  emailResent : Bool := false
deriving DecidableEq, Repr

/-- A stored ephemeral token record (token-storage row). -/
structure TokenRecord where
  token : String
  type : TokenTypes
  relationId : String
  environmentId : String
  expiresAt : Nat
deriving DecidableEq, Repr

/-- A user row.  Fields not set at creation default per the data
model: active true, emailConfirmed false, lastSignIn and environmentId
null. -/
structure User where
  id : String
  email : String
  fullName : String
  password : Option String := none
  active : Bool := true
  emailConfirmed : Bool := false
  lastSignIn : Option Nat := none
  environmentId : Option String := none
  thonLabsUser : Bool := false
deriving DecidableEq, Repr

/-- A tenant (environment): policy, nullable refresh lifetime, public
key presented by client apps. -/
structure Environment where
  id : String
  publicKey : String
  authProvider : AuthProviders
  refreshTokenExpiration : Option Nat := none
deriving DecidableEq, Repr

/-- One entry of the outbound-email log (the EmailTrigger contract:
send template X to recipient Z for user Y in tenant E).  The source
recipient field is named to, a reserved word here, hence sendTo. -/
structure EmailRecord where
  userId : String
  sendTo : String
  emailTemplateType : EmailTemplates
  environmentId : String
  scheduled : Bool := false
deriving DecidableEq, Repr

/-- The shared mutable state: token store, user directory, email log. -/
structure Store where
  tokens : List TokenRecord
  users : List User
  emails : List EmailRecord
deriving DecidableEq, Repr

/-- The session credential pair minted on authentication. -/
structure AuthTokens where
  accessToken : String
  refreshToken : Option String
deriving DecidableEq, Repr

/-- Modelled from the spec: Crypt.hash, the one-way adaptive password
hash; modelled as an injective tagging function, only the fact that
the stored value is the image of the plaintext matters here. -/
def Crypt.hash (plain : String) : String :=
  String.append "$argon$" plain

/-- UserService.getOurByEmail: first user with this email flagged as a
ThonLabs (platform) user. -/
def UserService.getOurByEmail (users : List User) (email : String) : Option User :=
  users.find? (fun u => u.email == email && u.thonLabsUser)

/-- UserService.getByEmail: first user with this email scoped to the
given environment. -/
def UserService.getByEmail (users : List User) (email : String)
    (environmentId : String) : Option User :=
  users.find? (fun u => u.email == email && u.environmentId == some environmentId)

/-- UserService.getById: first user with this id. -/
def UserService.getById (users : List User) (id : String) : Option User :=
  users.find? (fun u => u.id == id)

/-- UserService.createOwner: returns the existing owner row unchanged
when one exists; otherwise hashes the password, inserts the owner row
and returns it with the password field deleted. -/
def UserService.createOwner (users : List User) (freshId : String)
    (password : String) : User × List User :=
  match UserService.getOurByEmail users "gustavo@gsales.io" with
  | some owner => (owner, users)
  | none =>
      let stored : User :=
        { id := freshId
          email := "gustavo@gsales.io"
          fullName := "Gustavo Owner"
          password := some (Crypt.hash password)
          emailConfirmed := true
          thonLabsUser := true }
      ({ stored with password := none }, users ++ [stored])

/-- Payload of UserService.create. -/
structure CreatePayload where
  fullName : String
  email : String
  password : Option String := none
  environmentId : String
deriving DecidableEq, Repr

/-- UserService.create: checks the environment exists and the email is
free in that environment, hashes the password when present, inserts
the row and returns it with the password field deleted.  The insert
writes email, fullName, password and thonLabsUser only; the source
does not put the payload environmentId into the created row. -/
def UserService.create (envs : List Environment) (users : List User)
    (freshId : String) (payload : CreatePayload) :
    Except StatusCodes (User × List User) :=
  match envs.find? (fun e => e.id == payload.environmentId) with
  | none => .error .NotFound
  | some _ =>
    match UserService.getByEmail users payload.email payload.environmentId with
    | some _ => .error .Conflict
    | none =>
      let stored : User :=
        { id := freshId
          email := payload.email
          fullName := payload.fullName
          password := payload.password.map Crypt.hash
          thonLabsUser := false }
      .ok ({ stored with password := none }, users ++ [stored])

/-- Modelled from the spec: TokenStorageService.create persists a
fresh opaque token with the computed expiry and returns it. -/
def TokenStorageService.create (tokens : List TokenRecord) (freshTok : String)
    (type : TokenTypes) (relationId environmentId : String)
    (expiresInMinutes now : Nat) : String × List TokenRecord :=
  (freshTok,
   tokens ++ [{ token := freshTok, type := type, relationId := relationId,
                environmentId := environmentId,
                expiresAt := now + expiresInMinutes }])

/-- Modelled from the spec: TokenStorageService.delete removes the
record with this token value; idempotent, deleting an absent token is
not an error. -/
def TokenStorageService.delete (tokens : List TokenRecord) (token : String) :
    List TokenRecord :=
  tokens.filter (fun t => t.token != token)

/-- Modelled from the spec: TokenStorageService.deleteMany removes all
tokens of the given kind owned by the given user. -/
def TokenStorageService.deleteMany (tokens : List TokenRecord)
    (type : TokenTypes) (relationId : String) : List TokenRecord :=
  tokens.filter (fun t => !(t.type == type && t.relationId == relationId))

/-- Modelled from the spec: the session issuer mints an access token
always and a refresh token only when the tenant refresh lifetime is
non-null (stateless JWT-style, no storage writes). -/
def TokenStorageService.createAuthTokens (user : User) (env : Environment) :
    AuthTokens :=
  { accessToken := String.append "access:" (String.append user.id env.id)
    refreshToken :=
      if env.refreshTokenExpiration.isSome then
        some (String.append "refresh:" (String.append user.id env.id))
      else none }

/-- Payload returned by token validation. -/
structure ValidationData where
  relationId : String
  environmentId : String
  type : TokenTypes
deriving DecidableEq, Repr

/-- Outcome of token validation: success payload, or a status code
where the Expired case still carries the record payload. -/
inductive ValidationResult where
  | ok (d : ValidationData)
  | err (statusCode : StatusCodes) (d : Option ValidationData)
deriving DecidableEq, Repr

/-- Modelled from the spec: AuthService.validateUserTokenExpiration
(section 4.4).  Absent token or kind mismatch give NotFound; a token
past expiry gives Expired but is not deleted and the error carries the
record payload; otherwise the payload is returned and the record is
not deleted (deletion is the caller's responsibility). -/
def AuthService.validateUserTokenExpiration (tokens : List TokenRecord)
    (now : Nat) (token : String) (expectedType : TokenTypes) :
    ValidationResult :=
  match tokens.find? (fun t => t.token == token) with
  | none => .err .NotFound none
  | some t =>
    if t.type != expectedType then .err .NotFound none
    else if t.expiresAt < now then
      .err .Expired (some { relationId := t.relationId,
                            environmentId := t.environmentId, type := t.type })
    else
      .ok { relationId := t.relationId, environmentId := t.environmentId,
            type := t.type }

/-- Modelled from the spec: the EmailTrigger contract; a send appends
to the outbound log. -/
def EmailService.send (emails : List EmailRecord) (r : EmailRecord) :
    List EmailRecord :=
  emails ++ [r]

/-- Modelled from the spec: EnvironmentService.getById resolves a
tenant by id or fails NotFound. -/
def EnvironmentService.getById (envs : List Environment) (id : String) :
    Except StatusCodes Environment :=
  match envs.find? (fun e => e.id == id) with
  | some e => .ok e
  | none => .error .NotFound

/-- Modelled from the spec: EnvironmentService.getByPublicKeyFromRequest
resolves the tenant whose public key the request presented. -/
def EnvironmentService.getByPublicKey (envs : List Environment)
    (publicKey : String) : Option Environment :=
  envs.find? (fun e => e.publicKey == publicKey)

/-- Modelled from the spec: UserService.updatePassword stores the hash
of the new password on the user scoped to the environment; fails
closed (NotFound) when no such user exists in that tenant. -/
def UserService.updatePassword (users : List User) (id environmentId
    password : String) : Except StatusCodes (List User) :=
  if users.any (fun u => u.id == id && u.environmentId == some environmentId) then
    .ok (users.map (fun u =>
      if u.id == id && u.environmentId == some environmentId then
        { u with password := some (Crypt.hash password) }
      else u))
  else .error .NotFound

/-- Modelled from the spec: UserService.updateEmailConfirmation marks
the user's email-confirmed and active flags, scoped to the
environment; fails closed (NotFound) when no such user exists there. -/
def UserService.updateEmailConfirmation (users : List User)
    (id environmentId : String) : Except StatusCodes (List User) :=
  if users.any (fun u => u.id == id && u.environmentId == some environmentId) then
    .ok (users.map (fun u =>
      if u.id == id && u.environmentId == some environmentId then
        { u with emailConfirmed := true, active := true }
      else u))
  else .error .NotFound

/-- Modelled from the spec: UserService.sendConfirmationEmail
re-issues a fresh confirm-email token and sends one confirmation
email when the user resolves; reports false otherwise. -/
def UserService.sendConfirmationEmail (st : Store)
    (userId environmentId freshTok : String) (now : Nat) : Bool × Store :=
  match UserService.getById st.users userId with
  | none => (false, st)
  | some user =>
      (true,
       { st with
         tokens := (TokenStorageService.create st.tokens freshTok
           .ConfirmEmail userId environmentId 300 now).2
         emails := EmailService.send st.emails
           { userId := user.id, sendTo := user.email,
             emailTemplateType := .ConfirmEmail,
             environmentId := environmentId } })

/-- Modelled from the spec: AuthService.generateResetPasswordToken
deletes all prior reset-password tokens of the user (one live token of
a kind per user) and issues a fresh one with a 30 minute expiry. -/
def AuthService.generateResetPasswordToken (tokens : List TokenRecord)
    (userId environmentId freshTok : String) (now : Nat) :
    String × List TokenRecord :=
  let tokens1 := TokenStorageService.deleteMany tokens .ResetPassword userId
  TokenStorageService.create tokens1 freshTok .ResetPassword userId
    environmentId 30 now

/-- Modelled from the spec: AuthService.generateMagicLoginToken issues
a fresh magic-login token with a 30 minute expiry. -/
def AuthService.generateMagicLoginToken (tokens : List TokenRecord)
    (userId environmentId freshTok : String) (now : Nat) :
    String × List TokenRecord :=
  TokenStorageService.create tokens freshTok .MagicLogin userId
    environmentId 30 now

/-! ## Controller flows (AuthController) -/

/-- Payload of POST /auth/signup. -/
structure SignUpPayload where
  fullName : String
  email : String
  password : Option String := none
deriving DecidableEq, Repr

/-- AuthController.signUp: resolves the tenant from the public key
(Unauthorized when absent), checks the enableSignUp setting (Forbidden
when off), creates the user, stores a confirm-email token (5h) when a
password was given or a magic-login token (30m) otherwise, sends the
corresponding email plus a scheduled welcome email, and returns the
freshly minted session pair in the password case only (no body
otherwise). -/
def AuthController.signUp (envs : List Environment) (enableSignUp : Bool)
    (st : Store) (publicKey : String) (payload : SignUpPayload)
    (freshUserId freshTok : String) (now : Nat) :
    Except ErrBody (Option AuthTokens) × Store :=
  match EnvironmentService.getByPublicKey envs publicKey with
  | none => (.error { statusCode := .Unauthorized }, st)
  | some environment =>
    if !enableSignUp then (.error { statusCode := .Forbidden }, st)
    else
      match UserService.create envs st.users freshUserId
          { fullName := payload.fullName, email := payload.email,
            password := payload.password, environmentId := environment.id } with
      | .error s => (.error { statusCode := s }, st)
      | .ok (user, users1) =>
        let tokenType : TokenTypes :=
          if payload.password.isSome then .ConfirmEmail else .MagicLogin
        let expiresIn : Nat := if payload.password.isSome then 300 else 30
        let (_, tokens1) := TokenStorageService.create st.tokens freshTok
          tokenType user.id environment.id expiresIn now
        if payload.password.isSome then
          let tokens := TokenStorageService.createAuthTokens user environment
          let emails1 := EmailService.send st.emails
            { userId := user.id, sendTo := user.email,
              emailTemplateType := .ConfirmEmail, environmentId := environment.id }
          let emails2 := EmailService.send emails1
            { userId := user.id, sendTo := user.email,
              emailTemplateType := .Welcome, environmentId := environment.id,
              scheduled := true }
          (.ok (some tokens),
           { st with users := users1, tokens := tokens1, emails := emails2 })
        else
          let emails1 := EmailService.send st.emails
            { userId := user.id, sendTo := user.email,
              emailTemplateType := .MagicLink, environmentId := environment.id }
          let emails2 := EmailService.send emails1
            { userId := user.id, sendTo := user.email,
              emailTemplateType := .Welcome, environmentId := environment.id,
              scheduled := true }
          (.ok none,
           { st with users := users1, tokens := tokens1, emails := emails2 })

/-- AuthController.reAuthenticateFromRefreshToken: resolves the tenant
from the tl-env-id header (propagating the lookup failure), throws
Unauthorized when the tenant refresh lifetime is null, and otherwise
delegates to the auth-service rotation, whose outcome on the presented
token is the rotate argument. -/
def AuthController.reAuthenticateFromRefreshToken (envs : List Environment)
    (environmentId : String) (rotate : Except ErrBody AuthTokens) :
    Except ErrBody AuthTokens :=
  match EnvironmentService.getById envs environmentId with
  | .error s => .error { statusCode := s }
  | .ok environment =>
    match environment.refreshTokenExpiration with
    | none => .error { statusCode := .Unauthorized }
    | some _ => rotate

/-- AuthController.requestResetPassword: resolves the tenant from the
public key (Unauthorized when absent), looks the user up by email in
that tenant; when the user exists and is active it deletes all prior
reset-password tokens of the user, stores a fresh one (30m) and sends
the forgot-password email; otherwise it silently returns. -/
def AuthController.requestResetPassword (envs : List Environment) (st : Store)
    (publicKey email freshTok : String) (now : Nat) :
    Except ErrBody Unit × Store :=
  match EnvironmentService.getByPublicKey envs publicKey with
  | none => (.error { statusCode := .Unauthorized }, st)
  | some environment =>
    match UserService.getByEmail st.users email environment.id with
    | some user =>
      if user.active then
        let tokens1 := TokenStorageService.deleteMany st.tokens
          .ResetPassword user.id
        let (tok, tokens2) := TokenStorageService.create tokens1 freshTok
          .ResetPassword user.id environment.id 30 now
        let emails1 := EmailService.send st.emails
          { userId := user.id, sendTo := user.email,
            emailTemplateType := .ForgotPassword,
            environmentId := environment.id }
        let _ := tok
        (.ok (), { st with tokens := tokens2, emails := emails1 })
      else (.ok (), st)
    | none => (.ok (), st)

/-- AuthController.updateTokenResetPassword (PATCH): resolves the
tenant from the public key, re-validates the reset-password token
(propagating the failure), then deletes the token and updates the
password hash; the update failure is propagated but the token is
deleted either way. -/
def AuthController.updateTokenResetPassword (envs : List Environment)
    (st : Store) (publicKey token password : String) (now : Nat) :
    Except ErrBody Unit × Store :=
  match EnvironmentService.getByPublicKey envs publicKey with
  | none => (.error { statusCode := .Unauthorized }, st)
  | some environment =>
    match AuthService.validateUserTokenExpiration st.tokens now token
        .ResetPassword with
    | .err s _ => (.error { statusCode := s }, st)
    | .ok d =>
      let tokens1 := TokenStorageService.delete st.tokens token
      match UserService.updatePassword st.users d.relationId environment.id
          password with
      | .error s => (.error { statusCode := s }, { st with tokens := tokens1 })
      | .ok users1 => (.ok (), { st with tokens := tokens1, users := users1 })

/-- The validation phase of AuthController.confirmEmail: try the
confirm-email kind first and, only when that gives NotFound, retry the
same token value as an invite-user token. -/
def AuthController.confirmEmailValidation (tokens : List TokenRecord)
    (now : Nat) (token : String) : ValidationResult :=
  match AuthService.validateUserTokenExpiration tokens now token
      .ConfirmEmail with
  | .err .NotFound d => let _ := d
      AuthService.validateUserTokenExpiration tokens now token .InviteUser
  | v => v

/-- Follow-up credential returned in the confirm-email response body
for a first-login invited user. -/
structure FollowUp where
  tokenType : TokenTypes
  token : String
  email : Option String := none
deriving DecidableEq, Repr

/-- AuthController.confirmEmail: validates the token (confirm-email
kind first, invite-user on NotFound).  On a validation failure whose
payload is an expired confirm-email record with a user id, it resends
the confirmation email, deletes the stale token and reports the
NotAcceptable retry outcome with emailResent when the resend went out,
else rethrows the validation failure; other failures are rethrown with
the store untouched.  On success it marks the email confirmed, deletes
the token (even when the mark failed, which is then rethrown), and for
an invite-user token whose user never signed in returns a follow-up
reset-password or magic-login credential per the tenant policy, with
Internal on any other policy or a failed tenant lookup; otherwise it
returns an empty body. -/
def AuthController.confirmEmail (envs : List Environment) (st : Store)
    (token freshTok : String) (now : Nat) :
    Except ErrBody (Option FollowUp) × Store :=
  match AuthController.confirmEmailValidation st.tokens now token with
  | .err s d? =>
    match d? with
    | some d =>
      if d.type == TokenTypes.ConfirmEmail && d.relationId != "" then
        let (sent, st1) := UserService.sendConfirmationEmail st d.relationId
          d.environmentId freshTok now
        let st2 := { st1 with
          tokens := TokenStorageService.delete st1.tokens token }
        if sent then
          (.error { statusCode := .NotAcceptable, emailResent := true }, st2)
        else (.error { statusCode := s }, st2)
      else (.error { statusCode := s }, st)
    | none => (.error { statusCode := s }, st)
  | .ok d =>
    let upd := UserService.updateEmailConfirmation st.users d.relationId
      d.environmentId
    let users1 := match upd with | .error _ => st.users | .ok us => us
    let st1 := { st with users := users1,
                         tokens := TokenStorageService.delete st.tokens token }
    match upd with
    | .error s => (.error { statusCode := s }, st1)
    | .ok _ =>
      match UserService.getById st1.users d.relationId with
      | none => (.error { statusCode := .Internal }, st1)
      | some user =>
        if d.type == TokenTypes.InviteUser && user.lastSignIn == none then
          match EnvironmentService.getById envs d.environmentId with
          | .ok environment =>
            match environment.authProvider with
            | .EmailAndPassword =>
              let (tok, tokens2) := AuthService.generateResetPasswordToken
                st1.tokens d.relationId d.environmentId freshTok now
              (.ok (some { tokenType := .ResetPassword, token := tok,
                           email := some user.email }),
               { st1 with tokens := tokens2 })
            | .MagicLogin =>
              let (tok, tokens2) := AuthService.generateMagicLoginToken
                st1.tokens d.relationId d.environmentId freshTok now
              (.ok (some { tokenType := .MagicLogin, token := tok }),
               { st1 with tokens := tokens2 })
            | .MisconfiguredProvider =>
              (.error { statusCode := .Internal }, st1)
          | .error _ => (.error { statusCode := .Internal }, st1)
        else (.ok none, st1)

/-! ## Concrete fixtures used by witnesses -/

/-- A password-policy tenant with refresh enabled. -/
def envPassword : Environment :=
  { id := "env1", publicKey := "pk1", authProvider := .EmailAndPassword,
    refreshTokenExpiration := some 10080 }

/-- A magic-link-policy tenant. -/
def envMagic : Environment :=
  { id := "env2", publicKey := "pk2", authProvider := .MagicLogin,
    refreshTokenExpiration := some 10080 }

/-- A tenant with refresh disabled (null lifetime). -/
def envNoRefresh : Environment :=
  { id := "env3", publicKey := "pk3", authProvider := .EmailAndPassword,
    refreshTokenExpiration := none }

/-- The empty store. -/
def emptyStore : Store := { tokens := [], users := [], emails := [] }

/-! ## Shared helper lemmas -/

/-- After deleting a token value, no record with that value remains. -/
theorem TokenStorageService.find?_delete (tokens : List TokenRecord)
    (token : String) :
    (TokenStorageService.delete tokens token).find?
      (fun t => t.token == token) = none := by
  rw [List.find?_eq_none]
  intro t ht
  have := List.mem_filter.mp ht
  simpa using this.2

/-- Validation of any kind on a store lacking the token value gives
NotFound with no payload. -/
theorem validate_notFound_of_find?_none (tokens : List TokenRecord)
    (now : Nat) (token : String) (k : TokenTypes)
    (h : tokens.find? (fun t => t.token == token) = none) :
    AuthService.validateUserTokenExpiration tokens now token k
      = .err .NotFound none := by
  unfold AuthService.validateUserTokenExpiration
  rw [h]

/-! ## Claims -/

/-- Claim C1: with a valid tenant public key, the reset-password
request operation returns the ok acknowledgment whatever the user
lookup yields (no user-related error is thrown), and when the user is
absent or inactive the store is unchanged: no token is issued and no
email is sent. -/
theorem requestResetPassword_non_enumeration
    (envs : List Environment) (st : Store) (pk email freshTok : String)
    (now : Nat) (environment : Environment)
    (henv : EnvironmentService.getByPublicKey envs pk = some environment) :
    (AuthController.requestResetPassword envs st pk email freshTok now).1
      = .ok () ∧
    ((∀ u, UserService.getByEmail st.users email environment.id = some u →
        u.active = false) →
      (AuthController.requestResetPassword envs st pk email freshTok now).2
        = st) := by
  constructor
  · cases hu : UserService.getByEmail st.users email environment.id with
    | none => simp [AuthController.requestResetPassword, henv, hu]
    | some user =>
      cases hua : user.active with
      | false => simp [AuthController.requestResetPassword, henv, hu, hua]
      | true => simp [AuthController.requestResetPassword, henv, hu, hua]
  · intro h
    cases hu : UserService.getByEmail st.users email environment.id with
    | none => simp [AuthController.requestResetPassword, henv, hu]
    | some user =>
      simp [AuthController.requestResetPassword, henv, hu, h user hu]

/-- Witness for C1 at a concrete tenant and an empty user directory. -/
theorem requestResetPassword_non_enumeration_witness :
    (AuthController.requestResetPassword [envPassword] emptyStore "pk1"
        "a@x.com" "tok1" 0).1 = .ok () ∧
    ((∀ u, UserService.getByEmail emptyStore.users "a@x.com" envPassword.id
        = some u → u.active = false) →
      (AuthController.requestResetPassword [envPassword] emptyStore "pk1"
        "a@x.com" "tok1" 0).2 = emptyStore) :=
  requestResetPassword_non_enumeration [envPassword] emptyStore "pk1"
    "a@x.com" "tok1" 0 envPassword (by rfl)

/-- Claim C2: on a tenant whose refresh-token lifetime is null, the
refresh operation fails Unauthorized whatever the delegated rotation
would have produced for the presented token, so no session pair is
minted. -/
theorem reAuthenticate_refresh_disabled_unauthorized
    (envs : List Environment) (environmentId : String)
    (environment : Environment) (rotate : Except ErrBody AuthTokens)
    (henv : EnvironmentService.getById envs environmentId = .ok environment)
    (hnull : environment.refreshTokenExpiration = none) :
    AuthController.reAuthenticateFromRefreshToken envs environmentId rotate
      = .error { statusCode := .Unauthorized } := by
  simp [AuthController.reAuthenticateFromRefreshToken, henv, hnull]

/-- Witness for C2: a refresh-disabled tenant rejects even a rotation
that would have succeeded. -/
theorem reAuthenticate_refresh_disabled_unauthorized_witness :
    AuthController.reAuthenticateFromRefreshToken [envNoRefresh] "env3"
        (.ok { accessToken := "a", refreshToken := some "r" })
      = .error { statusCode := .Unauthorized } :=
  reAuthenticate_refresh_disabled_unauthorized [envNoRefresh] "env3"
    envNoRefresh (.ok { accessToken := "a", refreshToken := some "r" })
    (by rfl) (by rfl)

/-- Claim C4: when the PATCH reset-password token validates as live,
the token is removed from the store whatever the password update does,
and the same token value never validates successfully afterwards (any
kind, any time, gives NotFound). -/
theorem updateTokenResetPassword_single_shot
    (envs : List Environment) (st : Store) (pk token password : String)
    (now : Nat) (environment : Environment) (d : ValidationData)
    (henv : EnvironmentService.getByPublicKey envs pk = some environment)
    (hval : AuthService.validateUserTokenExpiration st.tokens now token
      .ResetPassword = .ok d) :
    (∀ t ∈ (AuthController.updateTokenResetPassword envs st pk token
        password now).2.tokens, t.token ≠ token) ∧
    (∀ now2 k, AuthService.validateUserTokenExpiration
        (AuthController.updateTokenResetPassword envs st pk token
          password now).2.tokens now2 token k = .err .NotFound none) := by
  have htok : (AuthController.updateTokenResetPassword envs st pk token
      password now).2.tokens = TokenStorageService.delete st.tokens token := by
    cases hup : UserService.updatePassword st.users d.relationId
        environment.id password with
    | error s => simp [AuthController.updateTokenResetPassword, henv, hval, hup]
    | ok users1 => simp [AuthController.updateTokenResetPassword, henv, hval, hup]
  rw [htok]
  constructor
  · intro t ht
    have h2 : t ∈ st.tokens ∧ ¬ t.token = token := by
      simpa [TokenStorageService.delete] using ht
    exact h2.2
  · intro now2 k
    exact validate_notFound_of_find?_none _ now2 token k
      (TokenStorageService.find?_delete st.tokens token)

/-- A store holding one live reset-password token for user u1. -/
def storeReset : Store :=
  { tokens := [{ token := "rtok", type := .ResetPassword, relationId := "u1",
                 environmentId := "env1", expiresAt := 30 }],
    users := [], emails := [] }

/-- Witness for C4: after the PATCH consumed the live token rtok, the
same value validates NotFound. -/
theorem updateTokenResetPassword_single_shot_witness :
    AuthService.validateUserTokenExpiration
      (AuthController.updateTokenResetPassword [envPassword] storeReset "pk1"
        "rtok" "newpw" 0).2.tokens 5 "rtok" .ResetPassword
      = .err .NotFound none :=
  (updateTokenResetPassword_single_shot [envPassword] storeReset "pk1" "rtok"
    "newpw" 0 envPassword
    { relationId := "u1", environmentId := "env1", type := .ResetPassword }
    (by rfl) (by rfl)).2 5 .ResetPassword

/-- Claim C3: when a reset-password token is requested for a found and
active user, every reset-password token of that user previously in the
store validates NotFound afterwards, and exactly one reset-password
token of that user is live in the resulting store. -/
theorem requestResetPassword_invalidates_prior_tokens
    (envs : List Environment) (st : Store) (pk email freshTok : String)
    (now : Nat) (environment : Environment) (user : User)
    (henv : EnvironmentService.getByPublicKey envs pk = some environment)
    (huser : UserService.getByEmail st.users email environment.id = some user)
    (hactive : user.active = true)
    (hnodup : (st.tokens.map TokenRecord.token).Nodup)
    (hfresh : freshTok ∉ st.tokens.map TokenRecord.token) :
    (∀ old ∈ st.tokens, old.type = .ResetPassword → old.relationId = user.id →
      ∀ now2, AuthService.validateUserTokenExpiration
        (AuthController.requestResetPassword envs st pk email freshTok
          now).2.tokens now2 old.token .ResetPassword
        = .err .NotFound none) ∧
    ((AuthController.requestResetPassword envs st pk email freshTok
        now).2.tokens.filter
      (fun t => t.type == TokenTypes.ResetPassword
        && t.relationId == user.id)).length = 1 := by
  have htokens : (AuthController.requestResetPassword envs st pk email
      freshTok now).2.tokens
      = TokenStorageService.deleteMany st.tokens .ResetPassword user.id
        ++ [{ token := freshTok, type := .ResetPassword,
              relationId := user.id, environmentId := environment.id,
              expiresAt := now + 30 }] := by
    simp [AuthController.requestResetPassword, henv, huser, hactive,
      TokenStorageService.create]
  rw [htokens]
  constructor
  · intro old hold htype hrel now2
    apply validate_notFound_of_find?_none
    rw [List.find?_append]
    have h1 : (TokenStorageService.deleteMany st.tokens .ResetPassword
        user.id).find? (fun t => t.token == old.token) = none := by
      rw [List.find?_eq_none]
      intro t ht
      have hmem := List.mem_filter.mp ht
      intro hteq
      have hteq2 : t.token = old.token := by simpa using hteq
      have : t = old := List.inj_on_of_nodup_map hnodup hmem.1 hold hteq2
      subst this
      revert hmem
      simp [htype, hrel]
    have h2 : freshTok ≠ old.token := by
      intro hcontra
      exact hfresh (hcontra ▸ List.mem_map_of_mem TokenRecord.token hold)
    rw [h1]
    simp [h2]
  · rw [List.filter_append]
    have hleft : (TokenStorageService.deleteMany st.tokens .ResetPassword
        user.id).filter (fun t => t.type == TokenTypes.ResetPassword
          && t.relationId == user.id) = [] := by
      simp only [TokenStorageService.deleteMany, List.filter_filter]
      have : ∀ a : TokenRecord,
          ((a.type == TokenTypes.ResetPassword && a.relationId == user.id)
            && !(a.type == TokenTypes.ResetPassword
              && a.relationId == user.id)) = false := by
        intro a
        exact Bool.and_not_self _
      simp [this]
    rw [hleft]
    simp

/-- A reset-password token of user u1 predating a new request. -/
def oldResetRec : TokenRecord :=
  { token := "old1", type := .ResetPassword, relationId := "u1",
    environmentId := "env1", expiresAt := 30 }

/-- A store holding user u1 of tenant env1 and one prior reset token. -/
def storePriorReset : Store :=
  { tokens := [oldResetRec],
    users := [{ id := "u1", email := "a@x.com", fullName := "Ann",
                environmentId := some "env1" }],
    emails := [] }

/-- Witness for C3: after requesting a new reset token, the prior one
validates NotFound and exactly one live reset token of the user
remains. -/
theorem requestResetPassword_invalidates_prior_tokens_witness :
    AuthService.validateUserTokenExpiration
      (AuthController.requestResetPassword [envPassword] storePriorReset
        "pk1" "a@x.com" "fresh1" 0).2.tokens 0 "old1" .ResetPassword
      = .err .NotFound none ∧
    ((AuthController.requestResetPassword [envPassword] storePriorReset
        "pk1" "a@x.com" "fresh1" 0).2.tokens.filter
      (fun t => t.type == TokenTypes.ResetPassword
        && t.relationId == "u1")).length = 1 := by
  have h := requestResetPassword_invalidates_prior_tokens [envPassword]
    storePriorReset "pk1" "a@x.com" "fresh1" 0 envPassword
    { id := "u1", email := "a@x.com", fullName := "Ann",
      environmentId := some "env1" }
    (by rfl) (by rfl) (by rfl) (by decide) (by decide)
  exact ⟨h.1 oldResetRec (by decide) (by rfl) (by rfl) 0, h.2⟩

/-- The confirmation email resent by the expired-confirm retry. -/
def retryEmailRec (user : User) (rec : TokenRecord) : EmailRecord :=
  { userId := user.id, sendTo := user.email,
    emailTemplateType := .ConfirmEmail, environmentId := rec.environmentId }

/-- The fresh confirm-email token issued by the expired-confirm retry. -/
def retryTokenRec (freshTok : String) (rec : TokenRecord) (now : Nat) :
    TokenRecord :=
  { token := freshTok, type := .ConfirmEmail, relationId := rec.relationId,
    environmentId := rec.environmentId, expiresAt := now + 300 }

/-- The payload carried by an Expired validation outcome. -/
def expiredData (rec : TokenRecord) : ValidationData :=
  { relationId := rec.relationId, environmentId := rec.environmentId,
    type := .ConfirmEmail }

/-- Claim C5: presenting an expired confirm-email token whose record
still carries its owning user id resends exactly one confirmation
email, deletes the stale token, and reports the distinct NotAcceptable
retry outcome flagged emailResent; presenting the same (now-deleted)
token again afterwards gives NotFound. -/
theorem confirmEmail_expired_retry
    (envs envs2 : List Environment) (st : Store)
    (token freshTok freshTok2 : String) (now now3 : Nat)
    (rec : TokenRecord) (user : User)
    (hfind : st.tokens.find? (fun t => t.token == token) = some rec)
    (htype : rec.type = .ConfirmEmail)
    (hexp : rec.expiresAt < now)
    (hrel : rec.relationId ≠ "")
    (huser : UserService.getById st.users rec.relationId = some user) :
    (AuthController.confirmEmail envs st token freshTok now).1
      = .error { statusCode := .NotAcceptable, emailResent := true } ∧
    (AuthController.confirmEmail envs st token freshTok now).2.emails
      = st.emails ++ [retryEmailRec user rec] ∧
    (∀ t ∈ (AuthController.confirmEmail envs st token freshTok now).2.tokens,
      t.token ≠ token) ∧
    (AuthController.confirmEmail envs2
        (AuthController.confirmEmail envs st token freshTok now).2 token
        freshTok2 now3).1
      = .error { statusCode := .NotFound } := by
  have hval1 : AuthService.validateUserTokenExpiration st.tokens now token
      .ConfirmEmail = .err .Expired (some (expiredData rec)) := by
    simp [AuthService.validateUserTokenExpiration, hfind, htype, hexp,
      expiredData]
  have hv : AuthController.confirmEmailValidation st.tokens now token
      = .err .Expired (some (expiredData rec)) := by
    simp [AuthController.confirmEmailValidation, hval1]
  have hrun : AuthController.confirmEmail envs st token freshTok now
      = (.error { statusCode := .NotAcceptable, emailResent := true },
         { st with
           tokens := TokenStorageService.delete
             (st.tokens ++ [retryTokenRec freshTok rec now]) token,
           emails := st.emails ++ [retryEmailRec user rec] }) := by
    simp [AuthController.confirmEmail, hv, UserService.sendConfirmationEmail,
      huser, bne_iff_ne, hrel, TokenStorageService.create, EmailService.send,
      expiredData, retryTokenRec, retryEmailRec]
  refine ⟨by rw [hrun], by rw [hrun], ?_, ?_⟩
  · rw [hrun]
    intro t ht
    have h2 : (t ∈ st.tokens ∧ ¬ t.token = token)
        ∨ (t = retryTokenRec freshTok rec now ∧ ¬ t.token = token) := by
      simpa [TokenStorageService.delete] using ht
    rcases h2 with h2 | h2 <;> exact h2.2
  · rw [hrun]
    have hnone := TokenStorageService.find?_delete
      (st.tokens ++ [retryTokenRec freshTok rec now]) token
    have hc := validate_notFound_of_find?_none _ now3 token .ConfirmEmail hnone
    have hi := validate_notFound_of_find?_none _ now3 token .InviteUser hnone
    simp [AuthController.confirmEmail, AuthController.confirmEmailValidation,
      hc, hi]

/-- An expired confirm-email token record for user u1. -/
def expiredConfirmRec : TokenRecord :=
  { token := "ctok", type := .ConfirmEmail, relationId := "u1",
    environmentId := "env1", expiresAt := 5 }

/-- A store holding the expired confirm-email token and its user. -/
def storeExpiredConfirm : Store :=
  { tokens := [expiredConfirmRec],
    users := [{ id := "u1", email := "a@x.com", fullName := "Ann",
                environmentId := some "env1" }],
    emails := [] }

/-- Witness for C5: the expired token yields the emailResent retry
outcome and its second presentation yields NotFound. -/
theorem confirmEmail_expired_retry_witness :
    (AuthController.confirmEmail [envPassword] storeExpiredConfirm "ctok"
        "fresh1" 10).1
      = .error { statusCode := .NotAcceptable, emailResent := true } ∧
    (AuthController.confirmEmail [envPassword]
        (AuthController.confirmEmail [envPassword] storeExpiredConfirm "ctok"
          "fresh1" 10).2 "ctok" "fresh2" 10).1
      = .error { statusCode := .NotFound } := by
  have h := confirmEmail_expired_retry [envPassword] [envPassword]
    storeExpiredConfirm "ctok" "fresh1" "fresh2" 10 10 expiredConfirmRec
    { id := "u1", email := "a@x.com", fullName := "Ann",
      environmentId := some "env1" }
    (by rfl) (by rfl) (by decide) (by decide) (by rfl)
  exact ⟨h.1, h.2.2.2⟩

/-- Claim C6: confirm-email validation tries the confirm-email kind
first and retries as invite-user exactly when the first attempt gave
NotFound; a live token of any other kind makes the whole operation
fail NotFound with the store untouched, not revealing the token. -/
theorem confirmEmail_kind_dispatch
    (envs : List Environment) (st : Store) (now : Nat)
    (token freshTok : String) :
    ((∀ d?, AuthService.validateUserTokenExpiration st.tokens now token
        .ConfirmEmail ≠ .err .NotFound d?) →
      AuthController.confirmEmailValidation st.tokens now token
        = AuthService.validateUserTokenExpiration st.tokens now token
            .ConfirmEmail) ∧
    (∀ d?, AuthService.validateUserTokenExpiration st.tokens now token
        .ConfirmEmail = .err .NotFound d? →
      AuthController.confirmEmailValidation st.tokens now token
        = AuthService.validateUserTokenExpiration st.tokens now token
            .InviteUser) ∧
    (∀ rec, st.tokens.find? (fun t => t.token == token) = some rec →
      rec.type ≠ .ConfirmEmail → rec.type ≠ .InviteUser →
      AuthController.confirmEmail envs st token freshTok now
        = (.error { statusCode := .NotFound }, st)) := by
  refine ⟨?_, ?_, ?_⟩
  · intro hne
    unfold AuthController.confirmEmailValidation
    cases hv : AuthService.validateUserTokenExpiration st.tokens now token
        .ConfirmEmail with
    | ok d => rfl
    | err s d? =>
      cases s with
      | NotFound => exact absurd hv (hne d?)
      | _ => rfl
  · intro d? hv
    unfold AuthController.confirmEmailValidation
    rw [hv]
  · intro rec hfind hc hi
    have hvc : AuthService.validateUserTokenExpiration st.tokens now token
        .ConfirmEmail = .err .NotFound none := by
      simp [AuthService.validateUserTokenExpiration, hfind, hc]
    have hvi : AuthService.validateUserTokenExpiration st.tokens now token
        .InviteUser = .err .NotFound none := by
      simp [AuthService.validateUserTokenExpiration, hfind, hi]
    simp [AuthController.confirmEmail, AuthController.confirmEmailValidation,
      hvc, hvi]

/-- A live magic-login token, the wrong kind for confirm-email. -/
def wrongKindRec : TokenRecord :=
  { token := "mtok", type := .MagicLogin, relationId := "u1",
    environmentId := "env1", expiresAt := 100 }

/-- A store holding only the wrong-kind token. -/
def storeWrongKind : Store :=
  { tokens := [wrongKindRec], users := [], emails := [] }

/-- Witness for C6: a live token of kind magic-login presented to
confirm-email is reported NotFound and the store is unchanged. -/
theorem confirmEmail_kind_dispatch_witness :
    AuthController.confirmEmail [envPassword] storeWrongKind "mtok"
      "fresh1" 0 = (.error { statusCode := .NotFound }, storeWrongKind) :=
  (confirmEmail_kind_dispatch [envPassword] storeWrongKind 0 "mtok"
    "fresh1").2.2 wrongKindRec (by rfl) (by decide) (by decide)

/-- Claim C7: after a successful invite-user validation and email
confirmation, a user who never signed in receives a follow-up
credential in the response: a reset-password token under the password
policy (with the email), a magic-login token under the magic-link
policy, and an Internal error under any other policy value; when the
user has signed in before or the token kind was confirm-email, the
response body is empty. -/
theorem confirmEmail_invite_followup
    (envs : List Environment) (st : Store) (token freshTok : String)
    (now : Nat) (d : ValidationData) (users1 : List User)
    (hval : AuthController.confirmEmailValidation st.tokens now token
      = .ok d)
    (hupd : UserService.updateEmailConfirmation st.users d.relationId
      d.environmentId = .ok users1) :
    (∀ user environment, d.type = .InviteUser →
      UserService.getById users1 d.relationId = some user →
      user.lastSignIn = none →
      EnvironmentService.getById envs d.environmentId = .ok environment →
      ((environment.authProvider = .EmailAndPassword →
        (AuthController.confirmEmail envs st token freshTok now).1
          = .ok (some { tokenType := .ResetPassword, token := freshTok,
                        email := some user.email })) ∧
       (environment.authProvider = .MagicLogin →
        (AuthController.confirmEmail envs st token freshTok now).1
          = .ok (some { tokenType := .MagicLogin, token := freshTok })) ∧
       (environment.authProvider = .MisconfiguredProvider →
        (AuthController.confirmEmail envs st token freshTok now).1
          = .error { statusCode := .Internal }))) ∧
    (∀ user, UserService.getById users1 d.relationId = some user →
      (d.type ≠ .InviteUser ∨ user.lastSignIn ≠ none) →
      (AuthController.confirmEmail envs st token freshTok now).1
        = .ok none) := by
  constructor
  · intro user environment htype huser hsign henv
    refine ⟨?_, ?_, ?_⟩ <;> intro hprov <;>
      simp [AuthController.confirmEmail, hval, hupd, huser, htype, hsign,
        henv, hprov, AuthService.generateResetPasswordToken,
        AuthService.generateMagicLoginToken, TokenStorageService.create]
  · intro user huser hcase
    cases hcase with
    | inl hne =>
      simp [AuthController.confirmEmail, hval, hupd, huser, hne]
    | inr hne =>
      simp [AuthController.confirmEmail, hval, hupd, huser, hne]

/-- A live invite-user token for user u1 of tenant env1. -/
def inviteRec : TokenRecord :=
  { token := "itok", type := .InviteUser, relationId := "u1",
    environmentId := "env1", expiresAt := 100 }

/-- An invited user of tenant env1 who never signed in. -/
def invitedUser : User :=
  { id := "u1", email := "a@x.com", fullName := "Ann",
    environmentId := some "env1" }

/-- A store holding the live invite token and the invited user. -/
def storeInvite : Store :=
  { tokens := [inviteRec], users := [invitedUser], emails := [] }

/-- The invited user after email confirmation. -/
def confirmedInvitedUser : User :=
  { invitedUser with emailConfirmed := true, active := true }

/-- Witness for C7: confirming the invite token of a never-signed-in
user on a password-policy tenant returns a reset-password follow-up
credential with the user email. -/
theorem confirmEmail_invite_followup_witness :
    (AuthController.confirmEmail [envPassword] storeInvite "itok"
        "fresh1" 0).1
      = .ok (some { tokenType := .ResetPassword, token := "fresh1",
                    email := some "a@x.com" }) :=
  ((confirmEmail_invite_followup [envPassword] storeInvite "itok" "fresh1" 0
      { relationId := "u1", environmentId := "env1", type := .InviteUser }
      [confirmedInvitedUser] (by rfl) (by rfl)).1
    confirmedInvitedUser envPassword (by rfl) (by rfl) (by rfl)
    (by rfl)).1 (by rfl)

/-- Claim C8: on a sign-up-enabled tenant resolved by public key with
the email free, a password signup answers with the freshly minted
session pair (refresh part present exactly when the tenant refresh
lifetime is set) and stores a confirm-email token for the new user; a
passwordless signup answers with no session credential (ack only) and
stores a magic-login token for the new user instead. -/
theorem signUp_policy_outcomes
    (envs : List Environment) (st : Store) (pk : String)
    (payload : SignUpPayload) (freshUserId freshTok : String) (now : Nat)
    (environment e0 : Environment)
    (henv : EnvironmentService.getByPublicKey envs pk = some environment)
    (henvid : envs.find? (fun e => e.id == environment.id) = some e0)
    (hfree : UserService.getByEmail st.users payload.email environment.id
      = none) :
    (∀ p, payload.password = some p →
      (AuthController.signUp envs true st pk payload freshUserId freshTok
          now).1
        = .ok (some (TokenStorageService.createAuthTokens
            { id := freshUserId, email := payload.email,
              fullName := payload.fullName } environment)) ∧
      (∃ tks, (AuthController.signUp envs true st pk payload freshUserId
          freshTok now).1 = .ok (some tks) ∧
        tks.refreshToken.isSome
          = environment.refreshTokenExpiration.isSome) ∧
      ((AuthController.signUp envs true st pk payload freshUserId freshTok
          now).2.tokens.any
        (fun t => t.type == TokenTypes.ConfirmEmail
          && t.relationId == freshUserId)) = true) ∧
    (payload.password = none →
      (AuthController.signUp envs true st pk payload freshUserId freshTok
          now).1 = .ok none ∧
      ((AuthController.signUp envs true st pk payload freshUserId freshTok
          now).2.tokens.any
        (fun t => t.type == TokenTypes.MagicLogin
          && t.relationId == freshUserId)) = true) := by
  constructor
  · intro p hp
    have h1 : (AuthController.signUp envs true st pk payload freshUserId
        freshTok now).1
        = .ok (some (TokenStorageService.createAuthTokens
            { id := freshUserId, email := payload.email,
              fullName := payload.fullName } environment)) := by
      simp [AuthController.signUp, henv, UserService.create, henvid, hfree,
        hp, TokenStorageService.create]
    refine ⟨h1, ⟨_, h1, ?_⟩, ?_⟩
    · cases hr : environment.refreshTokenExpiration <;>
        simp [TokenStorageService.createAuthTokens, hr]
    · simp [AuthController.signUp, henv, UserService.create, henvid, hfree,
        hp, TokenStorageService.create]
  · intro hp
    constructor
    · simp [AuthController.signUp, henv, UserService.create, henvid, hfree,
        hp, TokenStorageService.create]
    · simp [AuthController.signUp, henv, UserService.create, henvid, hfree,
        hp, TokenStorageService.create]

/-- Witness for C8: a concrete password signup returns the session
pair and stores a confirm-email token; the same signup without a
password returns no session and stores a magic-login token. -/
theorem signUp_policy_outcomes_witness :
    ((AuthController.signUp [envPassword] true emptyStore "pk1"
        { fullName := "Ann", email := "a@x.com", password := some "p" }
        "u1" "tk1" 0).1
      = .ok (some (TokenStorageService.createAuthTokens
          { id := "u1", email := "a@x.com", fullName := "Ann" }
          envPassword)) ∧
     ((AuthController.signUp [envPassword] true emptyStore "pk1"
        { fullName := "Ann", email := "a@x.com", password := some "p" }
        "u1" "tk1" 0).2.tokens.any
       (fun t => t.type == TokenTypes.ConfirmEmail && t.relationId == "u1"))
       = true) ∧
    ((AuthController.signUp [envPassword] true emptyStore "pk1"
        { fullName := "Ann", email := "a@x.com" } "u1" "tk1" 0).1
      = .ok none ∧
     ((AuthController.signUp [envPassword] true emptyStore "pk1"
        { fullName := "Ann", email := "a@x.com" } "u1" "tk1" 0).2.tokens.any
       (fun t => t.type == TokenTypes.MagicLogin && t.relationId == "u1"))
       = true) := by
  have hp := signUp_policy_outcomes [envPassword] emptyStore "pk1"
    { fullName := "Ann", email := "a@x.com", password := some "p" }
    "u1" "tk1" 0 envPassword envPassword (by rfl) (by rfl) (by rfl)
  have hm := signUp_policy_outcomes [envPassword] emptyStore "pk1"
    { fullName := "Ann", email := "a@x.com" }
    "u1" "tk1" 0 envPassword envPassword (by rfl) (by rfl) (by rfl)
  have hp1 := hp.1 "p" (by rfl)
  have hm1 := hm.2 (by rfl)
  exact ⟨⟨hp1.1, hp1.2.2⟩, hm1⟩

/-- The user row persisted by the signup on tenant env1: no
environment id is written. -/
def bugStoredUser : User :=
  { id := "u1", email := "a@x.com", fullName := "Ann",
    password := some (Crypt.hash "p") }

/-- Claim C9 (divergence witness): UserService.create, run on tenant
env1, persists the new user without any environment id, so the
tenant-scoped lookup of that email under env1 immediately afterwards
finds nothing.  The claim that the persisted record is scoped to the
signup tenant fails on the code as written. -/
theorem userCreate_not_scoped_to_tenant :
    UserService.create [envPassword] [] "u1"
        { fullName := "Ann", email := "a@x.com", password := some "p",
          environmentId := "env1" }
      = .ok ({ id := "u1", email := "a@x.com", fullName := "Ann" },
             [bugStoredUser]) ∧
    bugStoredUser.environmentId = none ∧
    UserService.getByEmail [bugStoredUser] "a@x.com" "env1" = none :=
  ⟨rfl, rfl, rfl⟩

/-- The pre-existing platform-owner row, password hash stored. -/
def existingOwner : User :=
  { id := "u0", email := "gustavo@gsales.io", fullName := "Gustavo Owner",
    password := some (Crypt.hash "old"), emailConfirmed := true,
    thonLabsUser := true }

/-- Claim C10 (counterexample): when the owner already exists,
UserService.createOwner returns the stored row as-is, so the caller
observes the stored password hash — the returned user object is not
password-free for every input. -/
theorem createOwner_returns_password_of_existing_owner :
    ((UserService.createOwner [existingOwner] "u1" "new").1).password
      = some (Crypt.hash "old") ∧
    ((UserService.createOwner [existingOwner] "u1" "new").1).password
      ≠ none := by
  decide

/-- Claim C10 (amended): UserService.create always returns the user
with the password stripped while storing only the hash; and
UserService.createOwner strips the password on the path that creates
the owner (storing the hash), though not on the owner-already-exists
path. -/
theorem user_creation_password_stripped
    (envs : List Environment) (users users2 : List User)
    (freshId freshId2 pw : String) (payload : CreatePayload)
    (e0 : Environment)
    (henvid : envs.find? (fun e => e.id == payload.environmentId) = some e0)
    (hfree : UserService.getByEmail users payload.email
      payload.environmentId = none)
    (howner : UserService.getOurByEmail users2 "gustavo@gsales.io" = none) :
    (∃ user users1,
      UserService.create envs users freshId payload = .ok (user, users1) ∧
      user.password = none ∧
      ∃ stored, stored ∈ users1 ∧ stored.id = freshId ∧
        stored.password = payload.password.map Crypt.hash) ∧
    (((UserService.createOwner users2 freshId2 pw).1).password = none ∧
     ∃ stored2, stored2 ∈ (UserService.createOwner users2 freshId2 pw).2 ∧
       stored2.password = some (Crypt.hash pw)) := by
  constructor
  · refine ⟨{ id := freshId, email := payload.email,
              fullName := payload.fullName },
            users ++ [{ id := freshId, email := payload.email,
                        fullName := payload.fullName,
                        password := payload.password.map Crypt.hash }],
            ?_, rfl, ?_⟩
    · simp [UserService.create, henvid, hfree]
    · exact ⟨_, List.mem_append_right users (List.mem_singleton.mpr rfl),
        rfl, rfl⟩
  · constructor
    · simp [UserService.createOwner, howner]
    · refine ⟨{ id := freshId2, email := "gustavo@gsales.io",
                fullName := "Gustavo Owner",
                password := some (Crypt.hash pw), emailConfirmed := true,
                thonLabsUser := true }, ?_, rfl⟩
      simp [UserService.createOwner, howner]

/-- Witness for the amended C10 at concrete inputs: a fresh signup
user and a fresh owner both come back password-free. -/
theorem user_creation_password_stripped_witness :
    ((UserService.createOwner [] "u2" "opw").1).password = none ∧
    (∃ user users1,
      UserService.create [envPassword] [] "u1"
          { fullName := "Ann", email := "a@x.com", password := some "p",
            environmentId := "env1" } = .ok (user, users1) ∧
      user.password = none ∧
      ∃ stored, stored ∈ users1 ∧ stored.id = "u1" ∧
        stored.password = (some "p").map Crypt.hash) := by
  have h := user_creation_password_stripped [envPassword] [] [] "u1" "u2"
    "opw" { fullName := "Ann", email := "a@x.com", password := some "p",
            environmentId := "env1" } envPassword
    (by rfl) (by rfl) (by rfl)
  exact ⟨h.2.1, h.1⟩
